import Mathlib

/-!
Verification development for the ActionEDx AI request orchestration core.

The orchestration code of the repository is the Python class
AIOrchestrator in ai_orchestrator/core.py (src/unnamed/part_008): the
routing dispatch route_request, the fallback loop process_with_fallback
and the quality gate validate_response_quality.  Helper methods that the
class invokes but that are not defined in the repository snapshot
(the per-task routing functions, get_fallback_models, call_model, the
task-specific validators, banned_phrases, check_coherence,
generate_fallback_response, the metrics latency reading) are modelled as
fields of the AIOrchestrator structure, i.e. as arbitrary parameters, so
every theorem below holds for every possible implementation of them.

Python strings are modelled as lists of characters (List Char), so that
len, str.lower and the `in` substring test have direct counterparts.
Floats appear only as the coherence threshold 0.7 and the cost field; both
are modelled as rationals.  Exceptions raised by a backend call are
modelled by call_model returning Except, the error carrying the
exception text.

The circuit breaker (/app/backend/circuit_breaker.py), the rate limiter
(/app/backend/rate_limiter.py) and the cache-first process entry point
(/app/backend/ai_orchestrator.py after Phase 1/2) are code of this
repository that is not under src/ — only their documentation
(DEPLOYMENT_GUIDE.md, PHASE1_IMPLEMENTATION_SUMMARY.md) is.  Those parts
are modelled from the spec; each such definition says so in its doc
comment.
-/

/-- The AIModel enum of ai_orchestrator/core.py (src/unnamed/part_008). -/
inductive AIModel
  | GPT_4_TURBO
  | CLAUDE_3_OPUS
  | CLAUDE_3_SONNET
  | MISTRAL_LARGE
  | GEMINI_PRO
  | LLAMA_3_70B
  | DBRX
  | CUSTOM_ACTIONUITY
deriving DecidableEq

/-- The string value of each AIModel member (it is a str Enum). -/
def AIModel.value : AIModel → String
  | .GPT_4_TURBO => "gpt-4-turbo-preview"
  | .CLAUDE_3_OPUS => "claude-3-opus-20240229"
  | .CLAUDE_3_SONNET => "claude-3-sonnet-20240229"
  | .MISTRAL_LARGE => "mistral-large-latest"
  | .GEMINI_PRO => "gemini-pro"
  | .LLAMA_3_70B => "llama-3-70b-instruct"
  | .DBRX => "databricks/dbrx-instruct"
  | .CUSTOM_ACTIONUITY => "actionuity/action-officer-v1"

/-- The AIOrchestrator of src/unnamed/part_008, parametrised by the type
of the context dictionary and by its helper methods, which the snapshot
declares (calls) but does not define: the six per-task routing functions
and route_default, get_fallback_models, call_model (Except.error models a
raised exception, carrying its text), the four task-specific validators,
banned_phrases, check_coherence, the metrics latency reading and
generate_fallback_response.  Keeping them abstract makes every theorem
hold for every implementation of them. -/
structure AIOrchestrator (Ctx : Type) where
  route_strategy_audit : Ctx → AIModel
  route_code_review : Ctx → AIModel
  route_creative_ideation : Ctx → AIModel
  route_ethical_assessment : Ctx → AIModel
  route_framework_alignment : Ctx → AIModel
  route_real_time_tutoring : Ctx → AIModel
  route_default : Ctx → AIModel
  get_fallback_models : AIModel → String → List AIModel
  call_model : AIModel → String → Ctx → Except String (List Char)
  validate_strategy_response : List Char → Bool
  validate_code_response : List Char → Bool
  validate_creative_response : List Char → Bool
  validate_ethical_response : List Char → Bool
  banned_phrases : List (List Char)
  check_coherence : List Char → ℚ
  get_latency : Nat
  generate_fallback_response : String → List Char

/-- Python `needle in haystack` substring test on char lists. -/
def occursIn (needle haystack : List Char) : Bool :=
  haystack.tails.any (fun t => needle.isPrefixOf t)

/-- Python response.lower(). -/
def lowerChars (s : List Char) : List Char :=
  s.map Char.toLower

/-- The default validation of validate_response_quality
(src/unnamed/part_008 lines 112-117): length strictly above 50, no banned
phrase occurring in the lowercased response, coherence strictly above
0.7. -/
def defaultValidation {Ctx : Type} (O : AIOrchestrator Ctx)
    (response : List Char) : Bool :=
  decide (50 < response.length) &&
  !(O.banned_phrases.any (fun b => occursIn b (lowerChars response))) &&
  decide ((7 : ℚ) / 10 < O.check_coherence response)

/-- validate_response_quality of src/unnamed/part_008 lines 99-117: the
validators dict maps four task types to task-specific validators; every
other task type falls to the default validation. -/
def validate_response_quality {Ctx : Type} (O : AIOrchestrator Ctx)
    (response : List Char) (task_type : String) : Bool :=
  if task_type = "strategy_audit" then O.validate_strategy_response response
  else if task_type = "code_review" then O.validate_code_response response
  else if task_type = "creative_ideation" then O.validate_creative_response response
  else if task_type = "ethical_assessment" then O.validate_ethical_response response
  else defaultValidation O response

/-- route_request of src/unnamed/part_008 lines 47-62: the routing_rules
dict maps six task types to routing functions; a task type that is not a
key falls to route_default. -/
def route_request {Ctx : Type} (O : AIOrchestrator Ctx)
    (task_type : String) (ctx : Ctx) : AIModel :=
  if task_type = "strategy_audit" then O.route_strategy_audit ctx
  else if task_type = "code_review" then O.route_code_review ctx
  else if task_type = "creative_ideation" then O.route_creative_ideation ctx
  else if task_type = "ethical_assessment" then O.route_ethical_assessment ctx
  else if task_type = "framework_alignment" then O.route_framework_alignment ctx
  else if task_type = "real_time_tutoring" then O.route_real_time_tutoring ctx
  else O.route_default ctx

/-- The dictionary process_with_fallback returns: on success it carries
the keys success=True, model, response, latency; on failure the keys
success=False, error, fallback_response. -/
inductive PResult
  | success (model : String) (response : List Char) (latency : Nat)
  | failure (error : String) (fallback_response : List Char)
deriving DecidableEq

/-- The side effects process_with_fallback performs, in order: each
backend invocation (called) and each call on the metrics collector
(record_success, record_quality_issue, record_failure — the latter
carrying str(e) of the caught exception). -/
inductive Event
  | called (m : AIModel)
  | recordSuccess (m : AIModel) (task_type : String)
  | recordQualityIssue (m : AIModel) (task_type : String)
  | recordFailure (m : AIModel) (task_type : String) (err : String)
deriving DecidableEq

/-- The static error string of the all-models-failed dictionary
(src/unnamed/part_008 line 95). -/
def allModelsFailedMsg : String := "All AI models failed to produce valid response"

/-- One iteration of the fallback loop, split on the outcome of the
backend call: an exception records a failure and continues with the rest
(whose outcome is the argument p); a response that passes validation
returns success with the model value and the metrics latency; a response
that fails validation records a quality issue and continues. -/
def handleCall {Ctx : Type} (O : AIOrchestrator Ctx) (tt : String)
    (m : AIModel) (p : PResult × List Event) :
    Except String (List Char) → PResult × List Event
  | Except.error e =>
      (p.1, Event.called m :: Event.recordFailure m tt e :: p.2)
  | Except.ok r =>
      if validate_response_quality O r tt then
        (PResult.success m.value r O.get_latency,
         [Event.called m, Event.recordSuccess m tt])
      else
        (p.1, Event.called m :: Event.recordQualityIssue m tt :: p.2)

/-- The for-loop of process_with_fallback (src/unnamed/part_008 lines
71-97) over the list of models still to try, together with the final
all-failed dictionary when the list is exhausted. -/
def tryModels {Ctx : Type} (O : AIOrchestrator Ctx)
    (prompt tt : String) (ctx : Ctx) : List AIModel → PResult × List Event
  | [] => (PResult.failure allModelsFailedMsg (O.generate_fallback_response tt), [])
  | m :: rest =>
      handleCall O tt m (tryModels O prompt tt ctx rest) (O.call_model m prompt ctx)

/-- models_to_try of src/unnamed/part_008 lines 68-69: the primary model
from route_request followed by get_fallback_models. -/
def modelsToTry {Ctx : Type} (O : AIOrchestrator Ctx)
    (tt : String) (ctx : Ctx) : List AIModel :=
  route_request O tt ctx :: O.get_fallback_models (route_request O tt ctx) tt

/-- process_with_fallback of src/unnamed/part_008 lines 64-97, returning
the result dictionary and the trace of backend invocations and metrics
calls. -/
def process_with_fallback {Ctx : Type} (O : AIOrchestrator Ctx)
    (prompt tt : String) (ctx : Ctx) : PResult × List Event :=
  tryModels O prompt tt ctx (modelsToTry O tt ctx)

/-- A candidate fails when its call raises (transport failure) or when
its response fails validation. -/
def failsOn {Ctx : Type} (O : AIOrchestrator Ctx)
    (prompt tt : String) (ctx : Ctx) (m : AIModel) : Prop :=
  (∃ e, O.call_model m prompt ctx = Except.error e) ∨
  (∃ r, O.call_model m prompt ctx = Except.ok r ∧
        validate_response_quality O r tt = false)

/-- The trace a failing candidate contributes: its recordFailure when the
call raised, its recordQualityIssue when validation rejected. -/
def failEventOf {Ctx : Type} (O : AIOrchestrator Ctx)
    (prompt tt : String) (ctx : Ctx) (m : AIModel) : Event :=
  match O.call_model m prompt ctx with
  | Except.error e => Event.recordFailure m tt e
  | Except.ok _ => Event.recordQualityIssue m tt

/-- The trace of a run of failing candidates, each invoked and then
reported failed before the next is touched. -/
def failEvents {Ctx : Type} (O : AIOrchestrator Ctx)
    (prompt tt : String) (ctx : Ctx) : List AIModel → List Event
  | [] => []
  | m :: ms => Event.called m :: failEventOf O prompt tt ctx m ::
               failEvents O prompt tt ctx ms

/-- Modelled from the spec: the Phase 2 breaker integration
(/app/backend/circuit_breaker.py and the updated ai_orchestrator.py are
not under src/; DEPLOYMENT_GUIDE.md documents per-model breakers fed by
call outcomes).  Per spec section 4.4/4.5, a validation rejection and a
transport failure are both reported to the called model's breaker as a
failure, and a validated response as a success; metrics-only events carry
no breaker report. -/
inductive BreakerReport
  | success (m : AIModel)
  | failure (m : AIModel)
deriving DecidableEq

/-- Modelled from the spec: the breaker reports that the trace of
process_with_fallback induces, in order (see BreakerReport). -/
def breakerReports : List Event → List BreakerReport
  | [] => []
  | Event.called _ :: evs => breakerReports evs
  | Event.recordSuccess m _ :: evs => BreakerReport.success m :: breakerReports evs
  | Event.recordQualityIssue m _ :: evs => BreakerReport.failure m :: breakerReports evs
  | Event.recordFailure m _ _ :: evs => BreakerReport.failure m :: breakerReports evs

/-- The three breaker states. -/
inductive BState
  | CLOSED
  | OPEN
  | HALF_OPEN
deriving DecidableEq

/-- Modelled from the spec: the per-backend circuit breaker of
/app/backend/circuit_breaker.py, which is not under src/ — only its
documentation (DEPLOYMENT_GUIDE.md, states/thresholds/flow) is.  Fields
follow spec section 3 BreakerState and section 4.2: state, consecutive
failure and success counters, the opening time, and the per-breaker
configuration failureThreshold, successThreshold, timeoutDuration.  Time
is in seconds. -/
structure Breaker where
  state : BState
  consecutiveFailures : Nat
  consecutiveSuccesses : Nat
  openedAt : Nat
  failureThreshold : Nat
  successThreshold : Nat
  timeoutDuration : Nat
deriving DecidableEq

/-- Modelled from the spec: a fresh breaker with the documented defaults
failureThreshold=5, successThreshold=2, timeout=60s. -/
def mkBreaker : Breaker :=
  ⟨BState.CLOSED, 0, 0, 0, 5, 2, 60⟩

/-- Modelled from the spec: reportFailure at time t.  CLOSED opens when
the consecutive-failure counter reaches the threshold; any failure while
HALF_OPEN reopens the breaker and resets the timer (openedAt becomes t);
a failure while OPEN leaves it OPEN without touching the timer. -/
def Breaker.reportFailure (b : Breaker) (t : Nat) : Breaker :=
  match b.state with
  | BState.CLOSED =>
      if b.failureThreshold ≤ b.consecutiveFailures + 1 then
        ⟨BState.OPEN, b.consecutiveFailures + 1, 0, t,
         b.failureThreshold, b.successThreshold, b.timeoutDuration⟩
      else
        ⟨BState.CLOSED, b.consecutiveFailures + 1, 0, b.openedAt,
         b.failureThreshold, b.successThreshold, b.timeoutDuration⟩
  | BState.HALF_OPEN =>
      ⟨BState.OPEN, b.consecutiveFailures + 1, 0, t,
       b.failureThreshold, b.successThreshold, b.timeoutDuration⟩
  | BState.OPEN =>
      ⟨BState.OPEN, b.consecutiveFailures + 1, 0, b.openedAt,
       b.failureThreshold, b.successThreshold, b.timeoutDuration⟩

/-- Modelled from the spec: reportSuccess at time t.  A success while
CLOSED clears the failure counter; the successThreshold-th consecutive
success while HALF_OPEN closes the breaker; a success while OPEN is a
no-op (OPEN rejects calls, so none completes). -/
def Breaker.reportSuccess (b : Breaker) (_t : Nat) : Breaker :=
  match b.state with
  | BState.CLOSED =>
      ⟨BState.CLOSED, 0, 0, b.openedAt,
       b.failureThreshold, b.successThreshold, b.timeoutDuration⟩
  | BState.HALF_OPEN =>
      if b.successThreshold ≤ b.consecutiveSuccesses + 1 then
        ⟨BState.CLOSED, 0, 0, b.openedAt,
         b.failureThreshold, b.successThreshold, b.timeoutDuration⟩
      else
        ⟨BState.HALF_OPEN, 0, b.consecutiveSuccesses + 1, b.openedAt,
         b.failureThreshold, b.successThreshold, b.timeoutDuration⟩
  | BState.OPEN => b

/-- Modelled from the spec: allow at time t — true while CLOSED or
HALF_OPEN; while OPEN it is false until timeoutDuration has elapsed since
openedAt, at which point the breaker auto-transitions to HALF_OPEN and
the call is allowed as a probe. -/
def Breaker.allowCall (b : Breaker) (t : Nat) : Bool × Breaker :=
  match b.state with
  | BState.CLOSED => (true, b)
  | BState.HALF_OPEN => (true, b)
  | BState.OPEN =>
      if b.openedAt + b.timeoutDuration ≤ t then
        (true, ⟨BState.HALF_OPEN, b.consecutiveFailures, 0, b.openedAt,
                b.failureThreshold, b.successThreshold, b.timeoutDuration⟩)
      else (false, b)

/-- Modelled from the spec: the rate-limiter error kinds — request-window
exhaustion and the distinct daily-token exhaustion (spec section 4.3). -/
inductive RLErr
  | RATE_LIMITED
  | TOKENS_EXHAUSTED
deriving DecidableEq

/-- Modelled from the spec: the Admission record returned by
checkAndConsume — allowed flag, optional retry-after duration in seconds,
and the error kind on rejection. -/
structure Admission where
  allowed : Bool
  retryAfter : Option Nat
  errKind : Option RLErr
deriving DecidableEq

/-- Modelled from the spec: the tier limit table of
/app/backend/rate_limiter.py, which is not under src/; the numbers are
the documented ones (DEPLOYMENT_GUIDE.md Rate Limit Tiers). -/
structure TierLimits where
  perMinute : Nat
  perHour : Nat
  perDay : Nat
  tokensPerDay : Nat
deriving DecidableEq

def FREE : TierLimits := ⟨10, 100, 500, 50000⟩

def BASIC : TierLimits := ⟨30, 500, 5000, 500000⟩

def PRO : TierLimits := ⟨100, 2000, 20000, 2000000⟩

def ENTERPRISE : TierLimits := ⟨1000, 10000, 100000, 10000000⟩

/-- Modelled from the spec: one user's fixed-window counters (spec
section 3 QuotaWindow, section 4.3): for each window kind the truncated
timestamp that keyed the last update and the count within it, plus the
daily token usage with its own day key. -/
structure QuotaState where
  minuteWin : Nat
  minuteCount : Nat
  hourWin : Nat
  hourCount : Nat
  dayWin : Nat
  dayCount : Nat
  tokWin : Nat
  tokensUsed : Nat
deriving DecidableEq

def freshQuota : QuotaState := ⟨0, 0, 0, 0, 0, 0, 0, 0⟩

/-- The effective count of a fixed window at the current truncated
timestamp: the stored count if the window key matches, else 0 (the window
elapsed and resets lazily). -/
def windowCount (win cnt cur : Nat) : Nat :=
  if win = cur then cnt else 0

/-- Modelled from the spec: checkAndConsume(userId, tier, endpointWeight)
of /app/backend/rate_limiter.py, which is not under src/.  Per spec
section 4.3 it atomically checks the minute, hour and day windows and the
daily token budget; if any window would be exceeded it rejects without
consuming anything (all-or-nothing), with RATE_LIMITED and the seconds
until the first exceeded window resets; token exhaustion rejects with the
distinct TOKENS_EXHAUSTED kind; otherwise all windows are incremented by
the weight.  t is the current time in seconds. -/
def checkAndConsume (tier : TierLimits) (q : QuotaState) (t : Nat)
    (weight : Nat) : Admission × QuotaState :=
  if tier.perMinute < windowCount q.minuteWin q.minuteCount (t / 60) + weight then
    (⟨false, some (60 - t % 60), some RLErr.RATE_LIMITED⟩, q)
  else if tier.perHour < windowCount q.hourWin q.hourCount (t / 3600) + weight then
    (⟨false, some (3600 - t % 3600), some RLErr.RATE_LIMITED⟩, q)
  else if tier.perDay < windowCount q.dayWin q.dayCount (t / 86400) + weight then
    (⟨false, some (86400 - t % 86400), some RLErr.RATE_LIMITED⟩, q)
  else if tier.tokensPerDay ≤ windowCount q.tokWin q.tokensUsed (t / 86400) then
    (⟨false, some (86400 - t % 86400), some RLErr.TOKENS_EXHAUSTED⟩, q)
  else
    (⟨true, none, none⟩,
     ⟨t / 60, windowCount q.minuteWin q.minuteCount (t / 60) + weight,
      t / 3600, windowCount q.hourWin q.hourCount (t / 3600) + weight,
      t / 86400, windowCount q.dayWin q.dayCount (t / 86400) + weight,
      q.tokWin, q.tokensUsed⟩)

/-- Modelled from the spec: consumeTokens — the separately tracked daily
token budget, decremented only after a completed AI call. -/
def consumeTokens (q : QuotaState) (t : Nat) (tokenCount : Nat) : QuotaState :=
  ⟨q.minuteWin, q.minuteCount, q.hourWin, q.hourCount, q.dayWin, q.dayCount,
   t / 86400, windowCount q.tokWin q.tokensUsed (t / 86400) + tokenCount⟩

/-- The quota state after n admissions of weight 1, all issued at the
same instant t, starting from a fresh user. -/
def admitN (tier : TierLimits) (t : Nat) : Nat → QuotaState
  | 0 => freshQuota
  | n + 1 => (checkAndConsume tier (admitN tier t n) t 1).2

/-- The admission the (n+1)-th rapid call receives. -/
def admissionAt (tier : TierLimits) (t n : Nat) : Admission :=
  (checkAndConsume tier (admitN tier t n) t 1).1

/-- Modelled from the spec: a Backend of the static registry (spec
section 3): id, capability flags as a predicate over task types, cost per
unit, maximum output size and nominal latency. -/
structure Backend where
  id : String
  capable : String → Bool
  cost : ℚ
  maxOutputSize : Nat
  latency : Nat

/-- Ascending cost, ties broken by ascending nominal latency — the order
the spec prescribes among equally capable fallbacks. -/
def costLatLe (a b : Backend) : Prop :=
  a.cost < b.cost ∨ (a.cost = b.cost ∧ a.latency ≤ b.latency)

instance : DecidableRel costLatLe := fun a b => by
  unfold costLatLe
  infer_instance

instance : IsTotal Backend costLatLe := by
  constructor
  intro a b
  rcases lt_trichotomy a.cost b.cost with h | h | h
  · exact Or.inl (Or.inl h)
  · rcases Nat.le_total a.latency b.latency with hl | hl
    · exact Or.inl (Or.inr ⟨h, hl⟩)
    · exact Or.inr (Or.inr ⟨h.symm, hl⟩)
  · exact Or.inr (Or.inl h)

instance : IsTrans Backend costLatLe := by
  constructor
  intro a b c hab hbc
  rcases hab with h1 | ⟨h1, l1⟩
  · rcases hbc with h2 | ⟨h2, _⟩
    · exact Or.inl (h1.trans h2)
    · exact Or.inl (h2 ▸ h1)
  · rcases hbc with h2 | ⟨h2, l2⟩
    · exact Or.inl (h1 ▸ h2)
    · exact Or.inr ⟨h1.trans h2, l1.trans l2⟩

/-- Modelled from the spec: route(taskType, context) of the Model Router
(spec section 4.4).  The routing helpers that src/unnamed/part_008
invokes (route_strategy_audit, get_fallback_models, ...) are not defined
under src/, so the router is modelled from the spec's words: the static
registry is filtered to the backends whose capability flags match the
task type and whose circuit breaker currently allows calls at time t, and
the survivors are ordered by ascending cost, ties by ascending nominal
latency.  The function of the inputs is deterministic by construction. -/
def routeBackends (reg : List Backend) (brk : String → Breaker) (t : Nat)
    (tt : String) : List Backend :=
  List.insertionSort costLatLe
    (reg.filter (fun b => b.capable tt && (Breaker.allowCall (brk b.id) t).1))

/-- Modelled from the spec: the ordered list of backend ids route
returns. -/
def routeIdsOf (reg : List Backend) (brk : String → Breaker) (t : Nat)
    (tt : String) : List String :=
  (routeBackends reg brk t tt).map Backend.id

/-- A registry of one backend whose breaker is OPEN, for the C5
witness. -/
def soleBackend : Backend :=
  ⟨"model-a", fun _ => true, 1, 4096, 900⟩

/-- An all-OPEN breaker table freshly opened at time 0, for the C5
witness. -/
def openBreakers : String → Breaker :=
  fun _ => ⟨BState.OPEN, 5, 0, 0, 5, 2, 60⟩

/-- The Task record (spec section 3): task type, user id, prompt, context
dictionary, and the cache-bypass flag. -/
structure OrchTask (Ctx : Type) where
  task_type : String
  user_id : String
  prompt : String
  context : Ctx
  use_cache : Bool

/-- Modelled from the spec: a CacheEntry of the Cache Gateway
(/app/backend/cache_manager.py is not under src/) — fingerprint key,
stored payload, and expiry time. -/
structure CacheEntry where
  key : String
  value : List Char
  expires_at : Nat

/-- Modelled from the spec: lookup by fingerprint — the entry's payload
if one is present and not expired, else none. -/
def cacheLookup (store : List CacheEntry) (fp : String) (now : Nat) :
    Option (List Char) :=
  match store.find? (fun e => e.key == fp) with
  | some e => if now < e.expires_at then some e.value else none
  | none => none

/-- Modelled from the spec: store under the task's fingerprint with the
task-type TTL, the new entry shadowing older ones. -/
def cacheStoreAdd (store : List CacheEntry) (fp : String) (v : List Char)
    (ttl now : Nat) : List CacheEntry :=
  ⟨fp, v, now + ttl⟩ :: store

/-- The error kinds a terminal process result can carry (spec section
7). -/
inductive OrchErr
  | RATE_LIMITED
  | ALL_BACKENDS_UNAVAILABLE
  | ALL_BACKENDS_FAILED
deriving DecidableEq

/-- The OrchestrationResult record returned to the caller (spec section
3). -/
structure OrchResult where
  success : Bool
  backend_used : Option String
  payload : Option (List Char)
  error_kind : Option OrchErr
  from_cache : Bool
  retry_after : Option Nat
deriving DecidableEq

/-- The collaborator invocations process performs, in order: the cache
lookup, the rate-limiter admission check, each breaker allow check, each
backend call, the cache store and the token consumption after a validated
success. -/
inductive OrchEvent
  | cacheLookupEv
  | rateCheckEv
  | breakerCheckEv (backend : String)
  | backendCallEv (backend : String)
  | cacheStoreEv
  | tokensConsumedEv
deriving DecidableEq

/-- Modelled from the spec: the collaborators of the process entry point
(/app/backend/ai_orchestrator.py after Phase 1/2 is not under src/),
abstracted per spec sections 4.1-4.5: the fingerprint function, the cache
store and clock, the per-user admission decision, the router, the breaker
allow re-check, the backend call interface, the validator and the static
fallback payload per task type. -/
structure ProcEnv (Ctx : Type) where
  fingerprint : OrchTask Ctx → String
  cache : List CacheEntry
  now : Nat
  rateAdmit : String → Admission
  routeIds : String → Ctx → List String
  brkAllow : String → Bool
  callBackend : String → String → Ctx → Except String (List Char)
  validateResp : List Char → String → Bool
  fallbackPayload : String → List Char

/-- Modelled from the spec: step 4 of process (spec section 4.5) — for
each candidate re-check its breaker, call it, validate; on transport or
validation failure move to the next candidate; on validated success
store to cache, consume tokens and return the success result; when the
candidates are exhausted return ALL_BACKENDS_FAILED with the static
fallback payload. -/
def procTry {Ctx : Type} (E : ProcEnv Ctx) (task : OrchTask Ctx) :
    List String → OrchResult × List OrchEvent
  | [] =>
      (⟨false, none, some (E.fallbackPayload task.task_type),
        some OrchErr.ALL_BACKENDS_FAILED, false, none⟩, [])
  | b :: rest =>
      if E.brkAllow b then
        match E.callBackend b task.prompt task.context with
        | Except.error _ =>
            ((procTry E task rest).1,
             OrchEvent.breakerCheckEv b :: OrchEvent.backendCallEv b ::
               (procTry E task rest).2)
        | Except.ok r =>
            if E.validateResp r task.task_type then
              (⟨true, some b, some r, none, false, none⟩,
               [OrchEvent.breakerCheckEv b, OrchEvent.backendCallEv b,
                OrchEvent.cacheStoreEv, OrchEvent.tokensConsumedEv])
            else
              ((procTry E task rest).1,
               OrchEvent.breakerCheckEv b :: OrchEvent.backendCallEv b ::
                 (procTry E task rest).2)
      else
        ((procTry E task rest).1,
         OrchEvent.breakerCheckEv b :: (procTry E task rest).2)

/-- Modelled from the spec: steps 2-5 of process on a cache miss or
bypass — rate-limiter admission (rejection is terminal with RATE_LIMITED
and retryAfter), routing (an empty candidate list is terminal with
ALL_BACKENDS_UNAVAILABLE and the static fallback payload), then the
candidate loop. -/
def procAfterCache {Ctx : Type} (E : ProcEnv Ctx) (task : OrchTask Ctx) :
    OrchResult × List OrchEvent :=
  if (E.rateAdmit task.user_id).allowed then
    match E.routeIds task.task_type task.context with
    | [] =>
        (⟨false, none, some (E.fallbackPayload task.task_type),
          some OrchErr.ALL_BACKENDS_UNAVAILABLE, false, none⟩,
         [OrchEvent.rateCheckEv])
    | b :: rest =>
        ((procTry E task (b :: rest)).1,
         OrchEvent.rateCheckEv :: (procTry E task (b :: rest)).2)
  else
    (⟨false, none, none, some OrchErr.RATE_LIMITED, false,
      (E.rateAdmit task.user_id).retryAfter⟩,
     [OrchEvent.rateCheckEv])

/-- Modelled from the spec: the process(task) entry point (spec section
4.5).  Step 1: when use_cache is set, a cache hit returns immediately
with from_cache=true; only a miss (or bypass) continues with the
rate-limited, breaker-gated candidate loop. -/
def process {Ctx : Type} (E : ProcEnv Ctx) (task : OrchTask Ctx) :
    OrchResult × List OrchEvent :=
  if task.use_cache then
    match cacheLookup E.cache (E.fingerprint task) E.now with
    | some v =>
        (⟨true, none, some v, none, true, none⟩, [OrchEvent.cacheLookupEv])
    | none =>
        ((procAfterCache E task).1,
         OrchEvent.cacheLookupEv :: (procAfterCache E task).2)
  else procAfterCache E task

/-- A concrete cached payload for the C1 witness. -/
def cachedPayloadW : List Char := "cached answer".data

/-- A concrete task for the C1 witness. -/
def taskW : OrchTask Unit :=
  ⟨"strategy_audit", "u1", "audit my project", (), true⟩

/-- A concrete environment for the C1 witness: the payload was stored
under the task's fingerprint at time 0 with a 60s TTL, and the clock
reads 30. -/
def envW : ProcEnv Unit :=
  ⟨fun tk => tk.task_type ++ ":" ++ tk.prompt,
   cacheStoreAdd [] ("strategy_audit" ++ ":" ++ "audit my project")
     cachedPayloadW 60 0,
   30,
   fun _ => ⟨true, none, none⟩,
   fun _ _ => ["model-a"],
   fun _ => true,
   fun _ _ _ => Except.ok "live answer".data,
   fun _ _ => true,
   fun _ => "fallback".data⟩

/-- A response long enough to pass the default validation, for the
witnesses. -/
def goodResp : List Char :=
  "this response is certainly long enough to pass the default quality gate".data

/-- A response too short for any length gate, for the witnesses. -/
def shortResp : List Char := "too short".data

/-- A concrete orchestrator instance for the witnesses: the default route
is gpt-4-turbo whose call raises, the strategy route is claude-3-opus
whose call returns a too-short response, the fallback chain is always
claude-3-sonnet whose call returns a long response; the strategy
validator checks length above 50, no phrase is banned and coherence is
constant 1. -/
def Oc : AIOrchestrator Unit :=
  ⟨fun _ => AIModel.CLAUDE_3_OPUS,
   fun _ => AIModel.GPT_4_TURBO,
   fun _ => AIModel.GPT_4_TURBO,
   fun _ => AIModel.GPT_4_TURBO,
   fun _ => AIModel.GPT_4_TURBO,
   fun _ => AIModel.GPT_4_TURBO,
   fun _ => AIModel.GPT_4_TURBO,
   fun _ _ => [AIModel.CLAUDE_3_SONNET],
   fun m _ _ =>
     match m with
     | AIModel.GPT_4_TURBO => Except.error "boom"
     | AIModel.CLAUDE_3_OPUS => Except.ok shortResp
     | _ => Except.ok goodResp,
   fun r => decide (50 < r.length),
   fun _ => true,
   fun _ => true,
   fun _ => true,
   [],
   fun _ => 1,
   5,
   fun _ => "fallback".data⟩

/-- An orchestrator instance every one of whose backend calls raises, for
the C6 witness. -/
def OcF : AIOrchestrator Unit :=
  ⟨fun _ => AIModel.CLAUDE_3_OPUS,
   fun _ => AIModel.GPT_4_TURBO,
   fun _ => AIModel.GPT_4_TURBO,
   fun _ => AIModel.GPT_4_TURBO,
   fun _ => AIModel.GPT_4_TURBO,
   fun _ => AIModel.GPT_4_TURBO,
   fun _ => AIModel.GPT_4_TURBO,
   fun _ _ => [AIModel.CLAUDE_3_SONNET],
   fun _ _ _ => Except.error "transport down",
   fun r => decide (50 < r.length),
   fun _ => true,
   fun _ => true,
   fun _ => true,
   [],
   fun _ => 1,
   5,
   fun _ => "fallback".data⟩

theorem tryModels_append {Ctx : Type} (O : AIOrchestrator Ctx)
    (prompt tt : String) (ctx : Ctx) :
    ∀ ms rest, (∀ x ∈ ms, failsOn O prompt tt ctx x) →
      tryModels O prompt tt ctx (ms ++ rest) =
        ((tryModels O prompt tt ctx rest).1,
         failEvents O prompt tt ctx ms ++ (tryModels O prompt tt ctx rest).2)
  | [], rest, _ => by simp [failEvents]
  | m :: ms, rest, h => by
      have hm := h m (List.mem_cons_self m ms)
      have ih := tryModels_append O prompt tt ctx ms rest
        (fun x hx => h x (List.mem_cons_of_mem m hx))
      rcases hm with ⟨e, he⟩ | ⟨r, hr, hv⟩
      · simp [tryModels, handleCall, he, ih, failEvents, failEventOf]
      · simp [tryModels, handleCall, hr, hv, ih, failEvents, failEventOf]

theorem tryModels_shape {Ctx : Type} (O : AIOrchestrator Ctx)
    (prompt tt : String) (ctx : Ctx) :
    ∀ ms, (∃ mv r, (tryModels O prompt tt ctx ms).1 =
             PResult.success mv r O.get_latency) ∨
          (tryModels O prompt tt ctx ms).1 =
            PResult.failure allModelsFailedMsg (O.generate_fallback_response tt)
  | [] => Or.inr (by simp [tryModels])
  | m :: ms => by
      rcases hc : O.call_model m prompt ctx with e | r
      · have := tryModels_shape O prompt tt ctx ms
        simpa [tryModels, handleCall, hc] using this
      · by_cases hv : validate_response_quality O r tt = true
        · exact Or.inl ⟨m.value, r, by simp [tryModels, handleCall, hc, hv]⟩
        · have := tryModels_shape O prompt tt ctx ms
          simpa [tryModels, handleCall, hc, hv] using this

theorem breakerReports_append : ∀ a b : List Event,
    breakerReports (a ++ b) = breakerReports a ++ breakerReports b
  | [], _ => rfl
  | Event.called _ :: evs, b => by simp [breakerReports, breakerReports_append evs b]
  | Event.recordSuccess _ _ :: evs, b => by
      simp [breakerReports, breakerReports_append evs b]
  | Event.recordQualityIssue _ _ :: evs, b => by
      simp [breakerReports, breakerReports_append evs b]
  | Event.recordFailure _ _ _ :: evs, b => by
      simp [breakerReports, breakerReports_append evs b]

theorem breakerReports_failEvents {Ctx : Type} (O : AIOrchestrator Ctx)
    (prompt tt : String) (ctx : Ctx) :
    ∀ ms, breakerReports (failEvents O prompt tt ctx ms) =
            ms.map (fun c => BreakerReport.failure c)
  | [] => rfl
  | m :: ms => by
      have ih := breakerReports_failEvents O prompt tt ctx ms
      rcases hc : O.call_model m prompt ctx with e | r
      · simp [failEvents, failEventOf, hc, breakerReports, ih]
      · simp [failEvents, failEventOf, hc, breakerReports, ih]

/-- Claim C2: process_with_fallback tries the candidates in order,
starting with the router's primary (modelsToTry is route_request followed
by the fallback chain); at the first candidate whose call succeeds and
whose response passes validation it returns the success dictionary naming
that backend, the trace being exactly the interleaving in which every
earlier failed candidate is invoked and has its failure reported before
the next candidate is invoked, and nothing after the succeeding candidate
is invoked; the reported failures reach each failed candidate's breaker
in order. -/
theorem c2_first_valid_success {Ctx : Type} (O : AIOrchestrator Ctx)
    (prompt tt : String) (ctx : Ctx) (early post : List AIModel)
    (m : AIModel) (r : List Char)
    (hc : modelsToTry O tt ctx = early ++ m :: post)
    (hpre : ∀ x ∈ early, failsOn O prompt tt ctx x)
    (hok : O.call_model m prompt ctx = Except.ok r)
    (hv : validate_response_quality O r tt = true) :
    process_with_fallback O prompt tt ctx =
      (PResult.success m.value r O.get_latency,
       failEvents O prompt tt ctx early ++
         [Event.called m, Event.recordSuccess m tt]) ∧
    breakerReports (failEvents O prompt tt ctx early) =
      early.map (fun c => BreakerReport.failure c) := by
  constructor
  · unfold process_with_fallback
    rw [hc, tryModels_append O prompt tt ctx early (m :: post) hpre]
    simp [tryModels, handleCall, hok, hv]
  · exact breakerReports_failEvents O prompt tt ctx early

/-- Claim C6: when every candidate fails (transport error or validation
rejection), process_with_fallback returns the non-success dictionary
whose error is the static all-models-failed string and whose fallback
payload is generate_fallback_response of the task type alone — no
exception text or rejected content reaches the result, as the right-hand
side mentions no call outcome. -/
theorem c6_all_failed {Ctx : Type} (O : AIOrchestrator Ctx)
    (prompt tt : String) (ctx : Ctx)
    (h : ∀ x ∈ modelsToTry O tt ctx, failsOn O prompt tt ctx x) :
    process_with_fallback O prompt tt ctx =
      (PResult.failure allModelsFailedMsg (O.generate_fallback_response tt),
       failEvents O prompt tt ctx (modelsToTry O tt ctx)) := by
  unfold process_with_fallback
  have := tryModels_append O prompt tt ctx (modelsToTry O tt ctx) [] h
  simpa [tryModels] using this

/-- Claim C7: a candidate whose call succeeds at the transport level but
whose response the validator rejects has a failure reported to its
breaker, and the orchestrator proceeds to the remaining candidates: the
final result is exactly the result computed from the candidates after it,
so the rejected content is not surfaced. -/
theorem c7_validation_failure {Ctx : Type} (O : AIOrchestrator Ctx)
    (prompt tt : String) (ctx : Ctx) (early post : List AIModel)
    (c : AIModel) (r : List Char)
    (hc : modelsToTry O tt ctx = early ++ c :: post)
    (hpre : ∀ x ∈ early, failsOn O prompt tt ctx x)
    (hok : O.call_model c prompt ctx = Except.ok r)
    (hv : validate_response_quality O r tt = false) :
    (process_with_fallback O prompt tt ctx).1 =
      (tryModels O prompt tt ctx post).1 ∧
    (process_with_fallback O prompt tt ctx).2 =
      failEvents O prompt tt ctx early ++
        Event.called c :: Event.recordQualityIssue c tt ::
          (tryModels O prompt tt ctx post).2 ∧
    breakerReports (process_with_fallback O prompt tt ctx).2 =
      early.map (fun x => BreakerReport.failure x) ++
        BreakerReport.failure c ::
          breakerReports (tryModels O prompt tt ctx post).2 := by
  have hmain : process_with_fallback O prompt tt ctx =
      ((tryModels O prompt tt ctx post).1,
       failEvents O prompt tt ctx early ++
         Event.called c :: Event.recordQualityIssue c tt ::
           (tryModels O prompt tt ctx post).2) := by
    unfold process_with_fallback
    rw [hc, tryModels_append O prompt tt ctx early (c :: post) hpre]
    simp [tryModels, handleCall, hok, hv]
  refine ⟨by rw [hmain], by rw [hmain], ?_⟩
  rw [hmain]
  simp [breakerReports_append, breakerReports_failEvents, breakerReports]

/-- Claim C8: for a task type without a task-specific validator,
validate_response_quality is true exactly when the response length is
strictly above 50 characters, no banned phrase occurs in the lowercased
response, and the coherence heuristic is strictly above 0.7. -/
theorem c8_default_validation {Ctx : Type} (O : AIOrchestrator Ctx)
    (r : List Char) (tt : String)
    (htt : tt ∉ ["strategy_audit", "code_review", "creative_ideation",
                 "ethical_assessment"]) :
    validate_response_quality O r tt = true ↔
      (50 < r.length ∧
       (∀ b ∈ O.banned_phrases, occursIn b (lowerChars r) = false) ∧
       (7 : ℚ) / 10 < O.check_coherence r) := by
  simp only [List.mem_cons, List.not_mem_nil, or_false, not_or] at htt
  obtain ⟨h1, h2, h3, h4⟩ := htt
  simp only [validate_response_quality, if_neg h1, if_neg h2, if_neg h3,
    if_neg h4, defaultValidation, Bool.and_eq_true, decide_eq_true_eq,
    Bool.not_eq_true', List.any_eq_false, Bool.not_eq_true]
  tauto

/-- Claim C9: process_with_fallback is a total function whose result is
always one of the two dictionary shapes — success with a model value and
a response, or failure with the static error string and the fallback
payload — and a raised exception inside a candidate's call is absorbed:
it is recorded as a failure and the loop continues with the remaining
candidates, the final result being theirs. -/
theorem c9_total_shape {Ctx : Type} (O : AIOrchestrator Ctx)
    (prompt tt : String) (ctx : Ctx) :
    ((∃ mv r, (process_with_fallback O prompt tt ctx).1 =
        PResult.success mv r O.get_latency) ∨
     (process_with_fallback O prompt tt ctx).1 =
        PResult.failure allModelsFailedMsg (O.generate_fallback_response tt)) ∧
    (∀ m rest e, O.call_model m prompt ctx = Except.error e →
       tryModels O prompt tt ctx (m :: rest) =
         ((tryModels O prompt tt ctx rest).1,
          Event.called m :: Event.recordFailure m tt e ::
            (tryModels O prompt tt ctx rest).2)) := by
  constructor
  · exact tryModels_shape O prompt tt ctx (modelsToTry O tt ctx)
  · intro m rest e he
    simp [tryModels, handleCall, he]

/-- Claim C10: route_request never fails on a key miss: any task type
outside the six routing_rules keys takes the else branch and returns
route_default of the context. -/
theorem c10_unknown_task_type {Ctx : Type} (O : AIOrchestrator Ctx)
    (tt : String) (ctx : Ctx)
    (htt : tt ∉ ["strategy_audit", "code_review", "creative_ideation",
                 "ethical_assessment", "framework_alignment",
                 "real_time_tutoring"]) :
    route_request O tt ctx = O.route_default ctx := by
  simp only [List.mem_cons, List.not_mem_nil, or_false, not_or] at htt
  obtain ⟨h1, h2, h3, h4, h5, h6⟩ := htt
  simp [route_request, h1, h2, h3, h4, h5, h6]

/-- Claim C3: the breaker state is always exactly one of CLOSED, OPEN,
HALF_OPEN, and the step relation is exactly the claimed one: from CLOSED
a reported failure opens the breaker iff it is the failureThreshold-th
consecutive one, and CLOSED persists below the threshold; from OPEN the
only way to HALF_OPEN is an allow check after timeoutDuration has
elapsed, never before, and reported outcomes keep it OPEN; from HALF_OPEN
the successThreshold-th consecutive success closes it, earlier successes
keep it HALF_OPEN, and a single failure reopens it with the timer reset
to the failure time regardless of prior successes; the defaults are
failureThreshold=5, successThreshold=2, timeoutDuration=60. -/
theorem c3_breaker_step (b : Breaker) (t : Nat) :
    (b.state = BState.CLOSED ∨ b.state = BState.OPEN ∨
       b.state = BState.HALF_OPEN) ∧
    (b.state = BState.CLOSED →
       ((b.reportFailure t).state = BState.OPEN ↔
          b.failureThreshold ≤ b.consecutiveFailures + 1)) ∧
    (b.state = BState.CLOSED → b.consecutiveFailures + 1 < b.failureThreshold →
       (b.reportFailure t).state = BState.CLOSED) ∧
    (b.state = BState.CLOSED → (b.reportSuccess t).state = BState.CLOSED) ∧
    (b.state = BState.OPEN →
       (((b.allowCall t).2.state = BState.HALF_OPEN ↔
           b.openedAt + b.timeoutDuration ≤ t) ∧
        (b.reportFailure t).state = BState.OPEN ∧
        (b.reportSuccess t).state = BState.OPEN)) ∧
    (b.state = BState.HALF_OPEN →
       (((b.reportSuccess t).state = BState.CLOSED ↔
           b.successThreshold ≤ b.consecutiveSuccesses + 1) ∧
        (b.reportFailure t).state = BState.OPEN ∧
        (b.reportFailure t).openedAt = t)) ∧
    (b.state ≠ BState.OPEN → (b.allowCall t).2 = b ∧ (b.allowCall t).1 = true) ∧
    (mkBreaker.failureThreshold = 5 ∧ mkBreaker.successThreshold = 2 ∧
       mkBreaker.timeoutDuration = 60) := by
  refine ⟨?_, ?_, ?_, ?_, ?_, ?_, ?_, ⟨rfl, rfl, rfl⟩⟩
  · cases h : b.state <;> simp
  · intro h
    constructor
    · intro ho
      by_contra hlt
      simp [Breaker.reportFailure, h, if_neg hlt] at ho
    · intro hth
      simp [Breaker.reportFailure, h, if_pos hth]
  · intro h hlt
    simp [Breaker.reportFailure, h, if_neg (Nat.not_le_of_lt hlt)]
  · intro h
    simp [Breaker.reportSuccess, h]
  · intro h
    refine ⟨⟨?_, ?_⟩, ?_, ?_⟩
    · intro hh
      by_contra hlt
      simp [Breaker.allowCall, h, if_neg hlt] at hh
    · intro hel
      simp [Breaker.allowCall, h, if_pos hel]
    · simp [Breaker.reportFailure, h]
    · simp [Breaker.reportSuccess, h]
  · intro h
    refine ⟨⟨?_, ?_⟩, ?_, ?_⟩
    · intro hc
      by_contra hlt
      simp [Breaker.reportSuccess, h, if_neg hlt] at hc
    · intro hth
      simp [Breaker.reportSuccess, h, if_pos hth]
    · simp [Breaker.reportFailure, h]
    · simp [Breaker.reportFailure, h]
  · intro h
    cases hs : b.state
    · simp [Breaker.allowCall, hs]
    · exact absurd hs h
    · simp [Breaker.allowCall, hs]

/-- Witness for C3: a CLOSED breaker with 4 prior consecutive failures
opens on the 5th failure with the default threshold, and a CLOSED breaker
with 3 prior failures stays CLOSED on the 4th; a HALF_OPEN breaker with
one probe success reopens on a single failure with its timer moved to the
failure time. -/
theorem c3_breaker_step_witness :
    ((Breaker.reportFailure ⟨BState.CLOSED, 4, 0, 0, 5, 2, 60⟩ 7).state
       = BState.OPEN) ∧
    ((Breaker.reportFailure ⟨BState.CLOSED, 3, 0, 0, 5, 2, 60⟩ 7).state
       = BState.CLOSED) ∧
    ((Breaker.reportFailure ⟨BState.HALF_OPEN, 0, 1, 2, 5, 2, 60⟩ 99).state
       = BState.OPEN) ∧
    ((Breaker.reportFailure ⟨BState.HALF_OPEN, 0, 1, 2, 5, 2, 60⟩ 99).openedAt
       = 99) := by
  refine ⟨?_, ?_, ?_, ?_⟩
  · exact ((c3_breaker_step ⟨BState.CLOSED, 4, 0, 0, 5, 2, 60⟩ 7).2.1
      rfl).mpr (by decide)
  · exact (c3_breaker_step ⟨BState.CLOSED, 3, 0, 0, 5, 2, 60⟩ 7).2.2.1
      rfl (by decide)
  · exact ((c3_breaker_step ⟨BState.HALF_OPEN, 0, 1, 2, 5, 2, 60⟩ 99
      ).2.2.2.2.2.1 rfl).2.1
  · exact ((c3_breaker_step ⟨BState.HALF_OPEN, 0, 1, 2, 5, 2, 60⟩ 99
      ).2.2.2.2.2.1 rfl).2.2

theorem admitN_counts (tier : TierLimits) (t : Nat)
    (h1 : tier.perMinute ≤ tier.perHour) (h2 : tier.perHour ≤ tier.perDay)
    (h3 : 0 < tier.tokensPerDay) :
    ∀ k, k ≤ tier.perMinute →
      windowCount (admitN tier t k).minuteWin (admitN tier t k).minuteCount (t / 60) = k ∧
      windowCount (admitN tier t k).hourWin (admitN tier t k).hourCount (t / 3600) = k ∧
      windowCount (admitN tier t k).dayWin (admitN tier t k).dayCount (t / 86400) = k ∧
      windowCount (admitN tier t k).tokWin (admitN tier t k).tokensUsed (t / 86400) = 0
  | 0, _ => by simp [admitN, freshQuota, windowCount]
  | k + 1, hk => by
      obtain ⟨hm, hh, hd, htok⟩ :=
        admitN_counts tier t h1 h2 h3 k (Nat.le_of_succ_le hk)
      have hmOk : ¬ tier.perMinute <
          windowCount (admitN tier t k).minuteWin (admitN tier t k).minuteCount (t / 60) + 1 := by
        rw [hm]; omega
      have hhOk : ¬ tier.perHour <
          windowCount (admitN tier t k).hourWin (admitN tier t k).hourCount (t / 3600) + 1 := by
        rw [hh]; omega
      have hdOk : ¬ tier.perDay <
          windowCount (admitN tier t k).dayWin (admitN tier t k).dayCount (t / 86400) + 1 := by
        rw [hd]; omega
      have htOk : ¬ tier.tokensPerDay ≤
          windowCount (admitN tier t k).tokWin (admitN tier t k).tokensUsed (t / 86400) := by
        rw [htok]; omega
      have hstep : admitN tier t (k + 1) =
          ⟨t / 60, windowCount (admitN tier t k).minuteWin
             (admitN tier t k).minuteCount (t / 60) + 1,
           t / 3600, windowCount (admitN tier t k).hourWin
             (admitN tier t k).hourCount (t / 3600) + 1,
           t / 86400, windowCount (admitN tier t k).dayWin
             (admitN tier t k).dayCount (t / 86400) + 1,
           (admitN tier t k).tokWin, (admitN tier t k).tokensUsed⟩ := by
        show (checkAndConsume tier (admitN tier t k) t 1).2 = _
        rw [checkAndConsume, if_neg hmOk, if_neg hhOk, if_neg hdOk, if_neg htOk]
      rw [hstep]
      refine ⟨?_, ?_, ?_, ?_⟩
      · simpa [windowCount] using hm
      · simpa [windowCount] using hh
      · simpa [windowCount] using hd
      · simpa [windowCount] using htok

/-- Claim C4: in one fixed window the first perMinute rapid admissions of
a tier are all allowed and the next is rejected with RATE_LIMITED and a
positive retryAfter; any rejection consumes nothing in any window
(all-or-nothing) and carries a positive retryAfter.  The tier is
arbitrary subject to the documented shape (per-minute limit not above
per-hour, per-hour not above per-day, a positive token budget), which all
four documented tiers satisfy. -/
theorem c4_fixed_window (tier : TierLimits) (t : Nat)
    (h1 : tier.perMinute ≤ tier.perHour) (h2 : tier.perHour ≤ tier.perDay)
    (h3 : 0 < tier.tokensPerDay) :
    (∀ k, k < tier.perMinute → admissionAt tier t k = ⟨true, none, none⟩) ∧
    (admissionAt tier t tier.perMinute =
       ⟨false, some (60 - t % 60), some RLErr.RATE_LIMITED⟩ ∧
     0 < 60 - t % 60) ∧
    admitN tier t (tier.perMinute + 1) = admitN tier t tier.perMinute ∧
    (∀ q w, ((checkAndConsume tier q t w).1).allowed = false →
       (checkAndConsume tier q t w).2 = q) ∧
    (∀ q w, ((checkAndConsume tier q t w).1).allowed = false →
       ∃ d, ((checkAndConsume tier q t w).1).retryAfter = some d ∧ 0 < d) := by
  have hreject : tier.perMinute <
      windowCount (admitN tier t tier.perMinute).minuteWin
        (admitN tier t tier.perMinute).minuteCount (t / 60) + 1 := by
    have := (admitN_counts tier t h1 h2 h3 tier.perMinute le_rfl).1
    omega
  refine ⟨?_, ⟨?_, ?_⟩, ?_, ?_, ?_⟩
  · intro k hk
    obtain ⟨hm, hh, hd, htok⟩ :=
      admitN_counts tier t h1 h2 h3 k (Nat.le_of_lt hk)
    unfold admissionAt
    rw [checkAndConsume, if_neg (by omega), if_neg (by omega),
      if_neg (by omega), if_neg (by omega)]
  · unfold admissionAt
    rw [checkAndConsume, if_pos hreject]
  · have : t % 60 < 60 := Nat.mod_lt t (by omega)
    omega
  · show (checkAndConsume tier (admitN tier t tier.perMinute) t 1).2 = _
    rw [checkAndConsume, if_pos hreject]
  · intro q w hal
    rw [checkAndConsume] at hal ⊢
    split at hal
    · rw [if_pos (by assumption)]
    · split at hal
      · rw [if_neg (by assumption), if_pos (by assumption)]
      · split at hal
        · rw [if_neg (by assumption), if_neg (by assumption),
            if_pos (by assumption)]
        · split at hal
          · rw [if_neg (by assumption), if_neg (by assumption),
              if_neg (by assumption), if_pos (by assumption)]
          · simp at hal
  · intro q w hal
    have h60 : t % 60 < 60 := Nat.mod_lt t (by omega)
    have h3600 : t % 3600 < 3600 := Nat.mod_lt t (by omega)
    have h86400 : t % 86400 < 86400 := Nat.mod_lt t (by omega)
    rw [checkAndConsume] at hal ⊢
    split at hal
    · rw [if_pos (by assumption)]
      exact ⟨60 - t % 60, rfl, by omega⟩
    · split at hal
      · rw [if_neg (by assumption), if_pos (by assumption)]
        exact ⟨3600 - t % 3600, rfl, by omega⟩
      · split at hal
        · rw [if_neg (by assumption), if_neg (by assumption),
            if_pos (by assumption)]
          exact ⟨86400 - t % 86400, rfl, by omega⟩
        · split at hal
          · rw [if_neg (by assumption), if_neg (by assumption),
              if_neg (by assumption), if_pos (by assumption)]
            exact ⟨86400 - t % 86400, rfl, by omega⟩
          · simp at hal

/-- Witness for C4: the documented free-tier scenario — a user on the
free tier (10 per minute) issuing 11 rapid admissions has the first and
tenth allowed and the 11th rejected with RATE_LIMITED and a positive
retryAfter, consuming nothing. -/
theorem c4_fixed_window_witness :
    admissionAt FREE 0 0 = ⟨true, none, none⟩ ∧
    admissionAt FREE 0 9 = ⟨true, none, none⟩ ∧
    admissionAt FREE 0 10 = ⟨false, some 60, some RLErr.RATE_LIMITED⟩ ∧
    admitN FREE 0 11 = admitN FREE 0 10 := by
  have h := c4_fixed_window FREE 0 (by decide) (by decide) (by decide)
  exact ⟨h.1 0 (by decide), h.1 9 (by decide), h.2.1.1, h.2.2.1⟩

/-- Claim C5: the routed list is sorted by ascending cost with ties by
ascending nominal latency, contains a registry backend exactly when its
capability flags match the task type and its breaker currently allows
calls, and a backend whose breaker is OPEN with the timeout not yet
elapsed is never in the list — even when it is the sole capable
backend. -/
theorem c5_route (reg : List Backend) (brk : String → Breaker) (t : Nat)
    (tt : String) :
    List.Sorted costLatLe (routeBackends reg brk t tt) ∧
    (∀ b, b ∈ routeBackends reg brk t tt ↔
       (b ∈ reg ∧ b.capable tt = true ∧
        (Breaker.allowCall (brk b.id) t).1 = true)) ∧
    (∀ b, (brk b.id).state = BState.OPEN →
       t < (brk b.id).openedAt + (brk b.id).timeoutDuration →
       b ∉ routeBackends reg brk t tt) := by
  have hmem : ∀ b, b ∈ routeBackends reg brk t tt ↔
      (b ∈ reg ∧ b.capable tt = true ∧
       (Breaker.allowCall (brk b.id) t).1 = true) := by
    intro b
    unfold routeBackends
    rw [List.mem_insertionSort, List.mem_filter, Bool.and_eq_true]
  refine ⟨List.sorted_insertionSort costLatLe _, hmem, ?_⟩
  intro b hopen helapsed hin
  have hallow := ((hmem b).mp hin).2.2
  rw [Breaker.allowCall] at hallow
  rw [hopen] at hallow
  rw [if_neg (by omega)] at hallow
  exact Bool.false_ne_true hallow

/-- Witness for C5: the sole capable backend is excluded from the route
while its breaker is OPEN and the 60s timeout has not elapsed at
t = 30. -/
theorem c5_route_witness :
    soleBackend ∉ routeBackends [soleBackend] openBreakers 30 "strategy_audit" :=
  (c5_route [soleBackend] openBreakers 30 "strategy_audit").2.2
    soleBackend rfl (by decide)

/-- Claim C1: a task with use_cache=true whose fingerprint equals that of
a previously stored, unexpired response is answered from the cache: the
result is the cached payload with from_cache=true, and the trace contains
only the cache lookup — no rate-limiter check, no breaker check and no
backend call occurs. -/
theorem c1_cache_hit {Ctx : Type} (E : ProcEnv Ctx) (task task0 : OrchTask Ctx)
    (v : List Char) (rest : List CacheEntry) (ttl t0 : Nat)
    (huse : task.use_cache = true)
    (hfp : E.fingerprint task = E.fingerprint task0)
    (hstore : E.cache = cacheStoreAdd rest (E.fingerprint task0) v ttl t0)
    (hfresh : E.now < t0 + ttl) :
    process E task = (⟨true, none, some v, none, true, none⟩,
                      [OrchEvent.cacheLookupEv]) ∧
    OrchEvent.rateCheckEv ∉ (process E task).2 ∧
    (∀ b, OrchEvent.breakerCheckEv b ∉ (process E task).2 ∧
          OrchEvent.backendCallEv b ∉ (process E task).2) := by
  have hhit : cacheLookup E.cache (E.fingerprint task) E.now = some v := by
    rw [hstore, hfp, cacheLookup, cacheStoreAdd]
    simp [List.find?, hfresh]
  have hmain : process E task = (⟨true, none, some v, none, true, none⟩,
      [OrchEvent.cacheLookupEv]) := by
    rw [process, if_pos huse, hhit]
  refine ⟨hmain, ?_, ?_⟩
  · rw [hmain]
    simp
  · intro b
    rw [hmain]
    simp

/-- Witness for C1: the concrete cached task is answered from the cache
with from_cache=true and a trace holding only the cache lookup. -/
theorem c1_cache_hit_witness :
    process envW taskW = (⟨true, none, some cachedPayloadW, none, true, none⟩,
                          [OrchEvent.cacheLookupEv]) :=
  (c1_cache_hit envW taskW taskW cachedPayloadW [] 60 0 rfl rfl rfl
    (by decide)).1

theorem seven_tenths_lt_one : (7 : ℚ) / 10 < 1 := by norm_num

theorem validate_chat_good : validate_response_quality Oc goodResp "chat" = true := by
  rw [validate_response_quality]
  rw [if_neg (by decide), if_neg (by decide), if_neg (by decide), if_neg (by decide)]
  rw [defaultValidation]
  have h1 : decide (50 < goodResp.length) = true := by decide
  have h2 : (Oc.banned_phrases.any fun b => occursIn b (lowerChars goodResp)) = false := rfl
  have h3 : decide ((7 : ℚ) / 10 < Oc.check_coherence goodResp) = true :=
    decide_eq_true seven_tenths_lt_one
  rw [h1, h2, h3]
  rfl

/-- Witness for C2: with the concrete instance, the primary gpt-4-turbo
raises, its failure is recorded, and the fallback claude-3-sonnet answers
with a validated response, naming that backend. -/
theorem c2_first_valid_success_witness :
    process_with_fallback Oc "p" "chat" () =
      (PResult.success AIModel.CLAUDE_3_SONNET.value goodResp Oc.get_latency,
       failEvents Oc "p" "chat" () [AIModel.GPT_4_TURBO] ++
         [Event.called AIModel.CLAUDE_3_SONNET,
          Event.recordSuccess AIModel.CLAUDE_3_SONNET "chat"]) :=
  (c2_first_valid_success Oc "p" "chat" () [AIModel.GPT_4_TURBO] []
    AIModel.CLAUDE_3_SONNET goodResp (by decide)
    (fun x hx => by
      simp only [List.mem_singleton] at hx
      subst hx
      exact Or.inl ⟨"boom", rfl⟩)
    rfl validate_chat_good).1

/-- Witness for C6: when every backend call raises, the result is the
static all-failed dictionary with the task-type fallback payload. -/
theorem c6_all_failed_witness :
    process_with_fallback OcF "p" "chat" () =
      (PResult.failure allModelsFailedMsg (OcF.generate_fallback_response "chat"),
       failEvents OcF "p" "chat" () (modelsToTry OcF "chat" ())) :=
  c6_all_failed OcF "p" "chat" ()
    (fun _ _ => Or.inl ⟨"transport down", rfl⟩)

/-- Witness for C7: claude-3-opus answers the strategy audit with a
too-short response; the result is the one computed from the fallback
candidates alone. -/
theorem c7_validation_failure_witness :
    (process_with_fallback Oc "p2" "strategy_audit" ()).1 =
      (tryModels Oc "p2" "strategy_audit" () [AIModel.CLAUDE_3_SONNET]).1 :=
  (c7_validation_failure Oc "p2" "strategy_audit" () [] [AIModel.CLAUDE_3_SONNET]
    AIModel.CLAUDE_3_OPUS shortResp (by decide)
    (fun x hx => absurd hx (List.not_mem_nil x))
    rfl (by decide)).1

/-- Witness for C8: the long response with no banned phrase and coherence
1 passes the default validation for the chat task type. -/
theorem c8_default_validation_witness :
    validate_response_quality Oc goodResp "chat" = true :=
  (c8_default_validation Oc goodResp "chat" (by decide)).mpr
    ⟨by decide, fun b hb => absurd hb (List.not_mem_nil b), seven_tenths_lt_one⟩

/-- Witness for C9: a raised exception on gpt-4-turbo is absorbed into a
recorded failure and the loop continues with the remaining (empty)
candidate list. -/
theorem c9_total_shape_witness :
    tryModels Oc "p" "chat" () [AIModel.GPT_4_TURBO] =
      ((tryModels Oc "p" "chat" () []).1,
       Event.called AIModel.GPT_4_TURBO ::
         Event.recordFailure AIModel.GPT_4_TURBO "chat" "boom" ::
           (tryModels Oc "p" "chat" () []).2) :=
  (c9_total_shape Oc "p" "chat" ()).2 AIModel.GPT_4_TURBO [] "boom" rfl

/-- Witness for C10: an unknown task type routes to the default model
without a key-miss failure. -/
theorem c10_unknown_task_type_witness :
    route_request Oc "poetry_generation" () = Oc.route_default () :=
  c10_unknown_task_type Oc "poetry_generation" () (by decide)
